import Mathlib

/-!
Verification of the Unicorn Java JNI binding layer
(src/bindings/java/unicorn_Unicorn.c).

The file shallowly embeds the binding's three cores:
* the dispatch trampolines (`cb_hookintr`, `cb_insn_in`, ..., `cb_mmio_write`),
  modelled as pure functions over an explicit JNI-environment state
  (`TrampState`) recording the pending-exception flag, the emulator-stop
  request and whether the host callback has been invoked;
* the hook registration registry (`makeHookWrapper`, `deleteHookWrapper`,
  the three overloads of `_hook_add`, `_hook_del`, `_mmio_map`), modelled as
  functions producing an event trace (`Ev`) of record allocations, global
  reference acquisitions/releases and native registrations, with JNI/libc
  failure points injected through oracles;
* the engine-control facade (every boundary entry point that receives a
  native status code), modelled by `entryRaises`.

Machine integers are modelled as bit patterns in `Nat` (a `jint` is a
`Nat` below `2 ^ 32`, a `jlong` a `Nat` below `2 ^ 64`); the `jlong`
value `-1` is the pattern `2 ^ 64 - 1`.
-/

set_option autoImplicit false

/-- Modelled from the spec: engine status codes (enum `uc_err` of the engine
header `unicorn/unicorn.h`, which is not under `src/`). `UC_ERR_OK` (zero) is
the only success value. -/
def UC_ERR_OK : Nat := 0

/-- Modelled from the spec: `UC_ERR_NOMEM` from the engine header. -/
def UC_ERR_NOMEM : Nat := 1

/-- Modelled from the spec: `UC_ERR_HANDLE` from the engine header. -/
def UC_ERR_HANDLE : Nat := 3

/-- Modelled from the spec: `UC_ERR_HOOK` (invalid hook kind) from the engine
header. -/
def UC_ERR_HOOK : Nat := 9

/-- Modelled from the spec: `UC_ERR_INSN_INVALID` (invalid instruction) from
the engine header. -/
def UC_ERR_INSN_INVALID : Nat := 10

/-- Modelled from the spec: `UC_ERR_MAP` from the engine header. -/
def UC_ERR_MAP : Nat := 11

/-- Modelled from the spec: `UC_PROT_ALL = UC_PROT_READ | UC_PROT_WRITE |
UC_PROT_EXEC = 7`, the permission-bit mask of the engine header. -/
def UC_PROT_ALL : Nat := 7

/-- State of one trampoline invocation: the JNI pending-exception flag of the
calling thread's environment, whether `uc_emu_stop` has been requested, and
whether the host callback method has been invoked. -/
structure TrampState where
  excPending : Bool
  stopRequested : Bool
  invoked : Bool
deriving DecidableEq, Repr

/-- Behaviour of the host callback method for one invocation: the value it
returns and whether it raises (leaves a pending Java exception). -/
structure HostCb (α : Type) where
  ret : α
  throws : Bool

/-- One JNI `Call*Method` on the hook target (unicorn_Unicorn.c, each
trampoline body): marks the callback invoked and records a pending exception
if the callback raised one. -/
def callHost {α : Type} (cb : HostCb α) (s : TrampState) : TrampState × α :=
  ({ s with invoked := true, excPending := s.excPending || cb.throws }, cb.ret)

/-- `hookErrorCheck` (unicorn_Unicorn.c lines 150-162): if a Java exception is
pending, request `uc_emu_stop` and report `true`; otherwise report `false`. -/
def hookErrorCheck (s : TrampState) : TrampState × Bool :=
  if s.excPending then ({ s with stopRequested := true }, true) else (s, false)

/-- A translation-block descriptor (`uc_tb`: pc, icount, size), and also the
Java `TranslationBlock` value record built from it. -/
structure UcTb where
  pc : Nat
  icount : Nat
  size : Nat
deriving DecidableEq, Repr

/-- `makeTranslationBlock` (lines 115-140): a NULL `uc_tb` yields NULL with no
exception; otherwise JNI class/method/object construction either succeeds
(`jniOk = true`) and copies the three fields, or fails leaving a pending
exception and yielding NULL. -/
def makeTranslationBlock (jniOk : Bool) (tb : Option UcTb) (s : TrampState) :
    Option UcTb × TrampState :=
  match tb with
  | none => (none, s)
  | some t =>
    if jniOk then (some ⟨t.pc, t.icount, t.size⟩, s)
    else (none, { s with excPending := true })

/-- `makeArm64_CP` (lines 86-113): NULL in, NULL out; otherwise the Java
`Arm64_CP` record is built unless JNI construction fails (pending
exception). Field values are irrelevant to the claims and elided. -/
def makeArm64_CP (jniOk : Bool) (cp : Option Unit) (s : TrampState) :
    Option Unit × TrampState :=
  match cp with
  | none => (none, s)
  | some _ =>
    if jniOk then (some (), s)
    else (none, { s with excPending := true })

/-- A TLB entry (`uc_tlb_entry`): physical address and permissions. -/
structure UcTlbEntry where
  paddr : Nat
  perms : Nat
deriving DecidableEq, Repr

/-- `cb_hookintr` (lines 166-174): interrupt hook, void result. -/
def cb_hookintr (cb : HostCb Unit) (s : TrampState) : TrampState :=
  let (s1, _) := callHost cb s
  (hookErrorCheck s1).1

/-- `cb_insn_in` (lines 178-191): port-in hook; on a detected pending failure
returns 0 instead of the callback's value. -/
def cb_insn_in (cb : HostCb Nat) (s : TrampState) : TrampState × Nat :=
  let (s1, result) := callHost cb s
  let (s2, e) := hookErrorCheck s1
  if e then (s2, 0) else (s2, result)

/-- `cb_insn_out` (lines 195-204): port-out hook, void result. -/
def cb_insn_out (cb : HostCb Unit) (s : TrampState) : TrampState :=
  let (s1, _) := callHost cb s
  (hookErrorCheck s1).1

/-- `cb_insn_syscall` (lines 208-216): syscall/sysenter hook, void result. -/
def cb_insn_syscall (cb : HostCb Unit) (s : TrampState) : TrampState :=
  let (s1, _) := callHost cb s
  (hookErrorCheck s1).1

/-- `cb_insn_cpuid` (lines 220-231): cpuid hook; 0 on pending failure. -/
def cb_insn_cpuid (cb : HostCb Nat) (s : TrampState) : TrampState × Nat :=
  let (s1, result) := callHost cb s
  let (s2, e) := hookErrorCheck s1
  if e then (s2, 0) else (s2, result)

/-- `cb_insn_sys` (lines 235-253): ARM64 system-register hook; builds the
`Arm64_CP` record first (short-circuiting to 0 if that fails), then 0 on a
pending failure after the call. -/
def cb_insn_sys (jniOk : Bool) (cp : Option Unit) (cb : HostCb Nat)
    (s : TrampState) : TrampState × Nat :=
  let (jcp, s1) := makeArm64_CP jniOk cp s
  match jcp with
  | none => ((hookErrorCheck s1).1, 0)
  | some _ =>
    let (s2, result) := callHost cb s1
    let (s3, e) := hookErrorCheck s2
    if e then (s3, 0) else (s3, result)

/-- `cb_hookcode` (lines 257-266): code/block hook, void result. -/
def cb_hookcode (cb : HostCb Unit) (s : TrampState) : TrampState :=
  let (s1, _) := callHost cb s
  (hookErrorCheck s1).1

/-- `cb_eventmem` (lines 270-283): invalid-memory-access veto hook; `false`
(propagate the fault) on pending failure. -/
def cb_eventmem (cb : HostCb Bool) (s : TrampState) : TrampState × Bool :=
  let (s1, result) := callHost cb s
  let (s2, e) := hookErrorCheck s1
  if e then (s2, false) else (s2, result)

/-- `cb_hookmem` (lines 287-297): valid-memory-access hook, void result. -/
def cb_hookmem (cb : HostCb Unit) (s : TrampState) : TrampState :=
  let (s1, _) := callHost cb s
  (hookErrorCheck s1).1

/-- `cb_hookinsn_invalid` (lines 301-312): invalid-instruction veto hook;
`false` on pending failure. -/
def cb_hookinsn_invalid (cb : HostCb Bool) (s : TrampState) : TrampState × Bool :=
  let (s1, result) := callHost cb s
  let (s2, e) := hookErrorCheck s1
  if e then (s2, false) else (s2, result)

/-- `cb_edge_gen` (lines 317-338): edge-generation hook.  Each of the two
`makeTranslationBlock` constructions that yields NULL short-circuits the
dispatch: `hookErrorCheck` runs and the trampoline returns without calling
the host callback. -/
def cb_edge_gen (jniOk1 jniOk2 : Bool) (cur prev : Option UcTb)
    (cb : HostCb Unit) (s : TrampState) : TrampState :=
  let r1 := makeTranslationBlock jniOk1 cur s
  match r1.1 with
  | none => (hookErrorCheck r1.2).1
  | some _ =>
    let r2 := makeTranslationBlock jniOk2 prev r1.2
    match r2.1 with
    | none => (hookErrorCheck r2.2).1
    | some _ =>
      let (s3, _) := callHost cb r2.2
      (hookErrorCheck s3).1

/-- `cb_tcg_op_2` (lines 342-352): TCG opcode hook, void result. -/
def cb_tcg_op_2 (cb : HostCb Unit) (s : TrampState) : TrampState :=
  let (s1, _) := callHost cb s
  (hookErrorCheck s1).1

/-- `cb_tlbevent` (lines 356-375): TLB-fill hook.  The callback returns a
`jlong` pattern `result`; on a pending failure the trampoline vetoes
(`false`, entry untouched); a result of `-1` (pattern `2 ^ 64 - 1`) vetoes;
otherwise `entry.paddr := result & ~UC_PROT_ALL` (the 64-bit complement of 7
is `2 ^ 64 - 8`), `entry.perms := result & UC_PROT_ALL`, and the hook
reports the entry as handled (`true`). -/
def cb_tlbevent (cb : HostCb Nat) (entry : UcTlbEntry) (s : TrampState) :
    TrampState × Bool × UcTlbEntry :=
  let (s1, result) := callHost cb s
  let (s2, e) := hookErrorCheck s1
  if e then (s2, false, entry)
  else if result = 2 ^ 64 - 1 then (s2, false, entry)
  else (s2, true, ⟨result &&& (2 ^ 64 - 8), result &&& UC_PROT_ALL⟩)

/-- `cb_mmio_read` (lines 379-392): MMIO read hook; 0 on pending failure. -/
def cb_mmio_read (cb : HostCb Nat) (s : TrampState) : TrampState × Nat :=
  let (s1, result) := callHost cb s
  let (s2, e) := hookErrorCheck s1
  if e then (s2, 0) else (s2, result)

/-- `cb_mmio_write` (lines 396-406): MMIO write hook, void result. -/
def cb_mmio_write (cb : HostCb Unit) (s : TrampState) : TrampState :=
  let (s1, _) := callHost cb s
  (hookErrorCheck s1).1

example : (cb_insn_in ⟨7, true⟩ ⟨false, false, false⟩).2 = 0 := by decide

example : (cb_tlbevent ⟨4099, false⟩ ⟨0, 0⟩ ⟨false, false, false⟩).2.2 =
    ⟨4096, 3⟩ := by decide

/-! ## Hook registration registry -/

/-- Modelled from the spec: hook event-type bit constants (enum `uc_hook_type`
of the engine header, not under `src/`): `UC_HOOK_INTR = 1 << 0` through
`UC_HOOK_TLB_FILL = 1 << 17`. -/
def UC_HOOK_INTR : Nat := 1

/-- Modelled from the spec: `UC_HOOK_INSN = 1 << 1`. -/
def UC_HOOK_INSN : Nat := 2

/-- Modelled from the spec: `UC_HOOK_CODE = 1 << 2`. -/
def UC_HOOK_CODE : Nat := 4

/-- Modelled from the spec: `UC_HOOK_BLOCK = 1 << 3`. -/
def UC_HOOK_BLOCK : Nat := 8

/-- Modelled from the spec: `UC_HOOK_MEM_INVALID`, the sum of the six
unmapped/protection-violation event bits (bits 4 through 9). -/
def UC_HOOK_MEM_INVALID : Nat := 16 + 32 + 64 + 128 + 256 + 512

/-- Modelled from the spec: `UC_HOOK_MEM_VALID`, the sum of
`UC_HOOK_MEM_READ = 1 << 10`, `UC_HOOK_MEM_WRITE = 1 << 11` and
`UC_HOOK_MEM_FETCH = 1 << 12`. -/
def UC_HOOK_MEM_VALID : Nat := 1024 + 2048 + 4096

/-- Modelled from the spec: `UC_HOOK_INSN_INVALID = 1 << 14`. -/
def UC_HOOK_INSN_INVALID : Nat := 16384

/-- Modelled from the spec: `UC_HOOK_EDGE_GENERATED = 1 << 15`. -/
def UC_HOOK_EDGE_GENERATED : Nat := 32768

/-- Modelled from the spec: `UC_HOOK_TCG_OPCODE = 1 << 16`. -/
def UC_HOOK_TCG_OPCODE : Nat := 65536

/-- Modelled from the spec: `UC_HOOK_TLB_FILL = 1 << 17`. -/
def UC_HOOK_TLB_FILL : Nat := 131072

/-- Bitwise complement of a 32-bit mask (the C expression `~mask` applied to a
`jint`, viewed as a bit pattern): for `m < 2 ^ 32` this equals
`(2 ^ 32 - 1) XOR m`. -/
def compl32 (m : Nat) : Nat := 2 ^ 32 - 1 - m

/-- The Java method signature strings `sig_InterruptHook` ...
`sig_MmioWriteHandler` (lines 164-395), as symbols. -/
inductive SigId
  | InterruptHook
  | InHook
  | OutHook
  | SyscallHook
  | CpuidHook
  | Arm64SysHook
  | CodeHook
  | EventMemHook
  | MemHook
  | InvalidInstructionHook
  | EdgeGeneratedHook
  | TcgOpcodeHook
  | TlbFillHook
  | MmioReadHandler
  | MmioWriteHandler
deriving DecidableEq, Repr, Fintype

/-- The native trampoline functions, as symbols (the `hook_callback` function
pointers selected by the `_hook_add` overloads). -/
inductive TrampKind
  | hookintr
  | insn_in
  | insn_out
  | insn_syscall
  | insn_cpuid
  | insn_sys
  | hookcode
  | eventmem
  | hookmem
  | hookinsn_invalid
  | edge_gen
  | tcg_op_2
  | tlbevent
  | mmio_read
  | mmio_write
deriving DecidableEq, Repr, Fintype

/-- The three per-record strong global references of a `hook_wrapper`: the
engine facade (`unicorn`), the callback target (`hook_obj`) and the optional
user data. -/
inductive RefKind
  | selfRef
  | cbRef
  | udRef
deriving DecidableEq, Repr, Fintype

/-- Observable native/JNI effects of the registry operations, tagged with the
record index they concern (0 or 1; `_mmio_map` builds up to two records). -/
inductive Ev
  | allocRecord (i : Nat)
  | freeRecord (i : Nat)
  | acquireRef (i : Nat) (k : RefKind)
  | releaseRef (i : Nat) (k : RefKind)
  | nativeHookAdd (i : Nat) (t : TrampKind)
  | nativeHookDel (i : Nat)
  | nativeMmioMap
deriving DecidableEq, Repr

/-- `struct hook_wrapper` (lines 142-148): the record index stands for the
record's identity (its address), the `sig` for the resolved method's shape,
and each Boolean for whether the corresponding field currently holds a
(non-NULL) value.  `calloc` zero-fills, so a fresh record has all fields
`false`. -/
structure HookWrapper where
  idx : Nat
  sig : SigId
  unicorn : Bool
  hook_obj : Bool
  hook_meth : Bool
  user_data : Bool
deriving DecidableEq, Repr

/-- Failure-injection oracle for one `makeHookWrapper` call: whether `calloc`,
each `NewGlobalRef`, `GetObjectClass` and `GetMethodID` succeed. -/
structure MakeHookOracle where
  callocOk : Bool
  refSelfOk : Bool
  refCbOk : Bool
  getClassOk : Bool
  getMethodOk : Bool
  refUserDataOk : Bool
deriving DecidableEq, Repr, Fintype

/-- The Java-side throwable left pending by a failing `makeHookWrapper`:
`throwOutOfMemoryError` on `calloc` failure, or the exception the failing JNI
call itself installed. -/
inductive JThrow
  | oom
  | jniPending
deriving DecidableEq, Repr

/-- `deleteHookWrapper` (lines 837-848): for a non-NULL record, delete each
held global reference (engine facade, callback target, user data, in that
order) and free the record's storage; a NULL argument is a no-op. -/
def deleteHookWrapper : Option HookWrapper → List Ev
  | none => []
  | some w =>
    (if w.unicorn then [Ev.releaseRef w.idx RefKind.selfRef] else []) ++
    (if w.hook_obj then [Ev.releaseRef w.idx RefKind.cbRef] else []) ++
    (if w.user_data then [Ev.releaseRef w.idx RefKind.udRef] else []) ++
    [Ev.freeRecord w.idx]

/-- `makeHookWrapper` (lines 850-894): allocate the record, acquire the engine
facade and callback global references, resolve the callback's method for the
given signature, and (when user data is supplied) acquire its global
reference; every failure path calls `deleteHookWrapper` on what exists so far
and returns NULL, with `calloc` failure additionally raising
`OutOfMemoryError`.  Result: the record (if any), the event trace, and the
pending throwable (if any). -/
def makeHookWrapper (i : Nat) (sg : SigId) (o : MakeHookOracle)
    (userData : Bool) : Option HookWrapper × List Ev × Option JThrow :=
  if !o.callocOk then (none, [], some JThrow.oom)
  else
    let w0 : HookWrapper := ⟨i, sg, false, false, false, false⟩
    let ev0 := [Ev.allocRecord i]
    if !o.refSelfOk then (none, ev0 ++ deleteHookWrapper (some w0), some JThrow.jniPending)
    else
      let w1 := { w0 with unicorn := true }
      let ev1 := ev0 ++ [Ev.acquireRef i RefKind.selfRef]
      if !o.refCbOk then (none, ev1 ++ deleteHookWrapper (some w1), some JThrow.jniPending)
      else
        let w2 := { w1 with hook_obj := true }
        let ev2 := ev1 ++ [Ev.acquireRef i RefKind.cbRef]
        if !o.getClassOk then (none, ev2 ++ deleteHookWrapper (some w2), some JThrow.jniPending)
        else if !o.getMethodOk then (none, ev2 ++ deleteHookWrapper (some w2), some JThrow.jniPending)
        else
          let w3 := { w2 with hook_meth := true }
          if userData then
            if !o.refUserDataOk then
              (none, ev2 ++ deleteHookWrapper (some w3), some JThrow.jniPending)
            else
              (some { w3 with user_data := true },
               ev2 ++ [Ev.acquireRef i RefKind.udRef], none)
          else (some w3, ev2, none)

/-- Result of a `_hook_add` overload: the record handle returned to Java, a
thrown `UnicornException` carrying an engine status, or the undefined
behaviour the source exhibits when it dereferences the NULL record returned
by a failed `makeHookWrapper` (`uc_hook_add(uc, &hh->uc_hh, ...)` with
`hh == NULL`). -/
inductive HookAddResult
  | handle (w : HookWrapper)
  | thrown (err : Nat)
  | nullDeref
deriving DecidableEq, Repr

/-- The common tail of the three `_hook_add` overloads: build the wrapper,
then call `uc_hook_add` — with no NULL check in between, so a failed wrapper
is dereferenced — and on a non-OK native status throw and delete the
wrapper. -/
def hookAddTail (sg : SigId) (tr : TrampKind) (o : MakeHookOracle)
    (userData : Bool) (engineErr : Nat) : HookAddResult × List Ev :=
  let r := makeHookWrapper 0 sg o userData
  match r.1 with
  | none => (HookAddResult.nullDeref, r.2.1)
  | some w =>
    let ev := r.2.1 ++ [Ev.nativeHookAdd 0 tr]
    if engineErr ≠ UC_ERR_OK then
      (HookAddResult.thrown engineErr, ev ++ deleteHookWrapper (some w))
    else (HookAddResult.handle w, ev)

/-- The dispatch chain of `Java_unicorn_Unicorn__1hook_1add__...JJ`
(lines 901-933): event type to signature and trampoline, or no match. -/
def selectShape0 (type : Nat) : Option (SigId × TrampKind) :=
  if type = UC_HOOK_INTR then some (SigId.InterruptHook, TrampKind.hookintr)
  else if type = UC_HOOK_CODE ∨ type = UC_HOOK_BLOCK then
    some (SigId.CodeHook, TrampKind.hookcode)
  else if type &&& UC_HOOK_MEM_INVALID ≠ 0 ∧ type &&& compl32 UC_HOOK_MEM_INVALID = 0 then
    some (SigId.EventMemHook, TrampKind.eventmem)
  else if type &&& UC_HOOK_MEM_VALID ≠ 0 ∧ type &&& compl32 UC_HOOK_MEM_VALID = 0 then
    some (SigId.MemHook, TrampKind.hookmem)
  else if type = UC_HOOK_INSN_INVALID then
    some (SigId.InvalidInstructionHook, TrampKind.hookinsn_invalid)
  else if type = UC_HOOK_EDGE_GENERATED then
    some (SigId.EdgeGeneratedHook, TrampKind.edge_gen)
  else if type = UC_HOOK_TLB_FILL then
    some (SigId.TlbFillHook, TrampKind.tlbevent)
  else none

/-- `Java_unicorn_Unicorn__1hook_1add__...JJ` (lines 901-945): the
two-extra-argument-free overload.  An unmatched event type throws
`UC_ERR_HOOK` immediately (no record, no native call). -/
def hook_add_0 (type : Nat) (o : MakeHookOracle) (userData : Bool)
    (engineErr : Nat) : HookAddResult × List Ev :=
  match selectShape0 type with
  | none => (HookAddResult.thrown UC_ERR_HOOK, [])
  | some (sg, tr) => hookAddTail sg tr o userData engineErr

/-- Modelled from the spec: the instruction identifiers recognised by the
generic instruction-hook overload (`UC_X86_INS_IN`, `UC_X86_INS_OUT`,
`UC_X86_INS_SYSCALL`, `UC_X86_INS_SYSENTER`, `UC_X86_INS_CPUID`,
`UC_ARM64_INS_MRS`, `UC_ARM64_INS_MSR`, `UC_ARM64_INS_SYS`,
`UC_ARM64_INS_SYSL`), abstracted as symbols because their numeric values live
in the engine headers `x86.h`/`arm64.h`, not under `src/`; `other n` stands
for any other identifier. -/
inductive InsnId
  | insIN
  | insOUT
  | insSYSCALL
  | insSYSENTER
  | insCPUID
  | insMRS
  | insMSR
  | insSYS
  | insSYSL
  | other (n : Nat)
deriving DecidableEq, Repr

/-- The `switch (arg)` of `Java_unicorn_Unicorn__1hook_1add__...JJI`
(lines 961-989): the instruction identifier selects the signature and the
trampoline; an unrecognised identifier selects nothing. -/
def insnDispatch : InsnId → Option (SigId × TrampKind)
  | InsnId.insIN => some (SigId.InHook, TrampKind.insn_in)
  | InsnId.insOUT => some (SigId.OutHook, TrampKind.insn_out)
  | InsnId.insSYSCALL => some (SigId.SyscallHook, TrampKind.insn_syscall)
  | InsnId.insSYSENTER => some (SigId.SyscallHook, TrampKind.insn_syscall)
  | InsnId.insCPUID => some (SigId.CpuidHook, TrampKind.insn_cpuid)
  | InsnId.insMRS => some (SigId.Arm64SysHook, TrampKind.insn_sys)
  | InsnId.insMSR => some (SigId.Arm64SysHook, TrampKind.insn_sys)
  | InsnId.insSYS => some (SigId.Arm64SysHook, TrampKind.insn_sys)
  | InsnId.insSYSL => some (SigId.Arm64SysHook, TrampKind.insn_sys)
  | InsnId.other _ => none

/-- `Java_unicorn_Unicorn__1hook_1add__...JJI` (lines 952-1005): the
one-extra-argument overload.  Only `UC_HOOK_INSN` is accepted (otherwise
`UC_ERR_HOOK`); under it an unrecognised instruction identifier throws
`UC_ERR_INSN_INVALID` — both immediately, before any record or native
call. -/
def hook_add_1 (type : Nat) (arg : InsnId) (o : MakeHookOracle)
    (userData : Bool) (engineErr : Nat) : HookAddResult × List Ev :=
  if type = UC_HOOK_INSN then
    match insnDispatch arg with
    | none => (HookAddResult.thrown UC_ERR_INSN_INVALID, [])
    | some (sg, tr) => hookAddTail sg tr o userData engineErr
  else (HookAddResult.thrown UC_ERR_HOOK, [])

/-- `Java_unicorn_Unicorn__1hook_1add__...JJII` (lines 1012-1038): the
two-extra-argument overload.  Only `UC_HOOK_TCG_OPCODE` is accepted
(otherwise `UC_ERR_HOOK` immediately). -/
def hook_add_2 (type : Nat) (o : MakeHookOracle) (userData : Bool)
    (engineErr : Nat) : HookAddResult × List Ev :=
  if type = UC_HOOK_TCG_OPCODE then
    hookAddTail SigId.TcgOpcodeHook TrampKind.tcg_op_2 o userData engineErr
  else (HookAddResult.thrown UC_ERR_HOOK, [])

/-- `Java_unicorn_Unicorn__1hook_1del` (lines 1045-1063): call `uc_hook_del`
(whose status the source discards), then delete and NULL out each still-held
global reference.  The record's storage is not freed here. -/
def hook_del (w : HookWrapper) : HookWrapper × List Ev :=
  let ev0 := [Ev.nativeHookDel w.idx]
  let p1 :=
    if w.unicorn then
      ({ w with unicorn := false }, ev0 ++ [Ev.releaseRef w.idx RefKind.selfRef])
    else (w, ev0)
  let p2 :=
    if p1.1.hook_obj then
      ({ p1.1 with hook_obj := false }, p1.2 ++ [Ev.releaseRef w.idx RefKind.cbRef])
    else p1
  if p2.1.user_data then
    ({ p2.1 with user_data := false }, p2.2 ++ [Ev.releaseRef w.idx RefKind.udRef])
  else p2

/-- `Java_unicorn_Unicorn__1hookwrapper_1free` (lines 1070-1075): exactly
`deleteHookWrapper`. -/
def hookwrapper_free (w : Option HookWrapper) : List Ev :=
  deleteHookWrapper w

/-- Failure-injection oracle for `_mmio_map`: one `makeHookWrapper` oracle per
target, the `NewLongArray` outcome, and the `uc_mmio_map` status. -/
structure MmioOracle where
  rd : MakeHookOracle
  wr : MakeHookOracle
  arrayOk : Bool
  mmioErr : Nat
deriving DecidableEq, Repr

/-- The `fail:` label of `Java_unicorn_Unicorn__1mmio_1map` (lines 1127-1130):
delete both wrappers (a NULL slot is a no-op) and return NULL. -/
def mmioFail (ev : List Ev) (h0 h1 : Option HookWrapper) :
    Option (List HookWrapper) × List Ev :=
  (none, ev ++ deleteHookWrapper h0 ++ deleteHookWrapper h1)

/-- The `hooks[0]` construction step of `_mmio_map` (lines 1090-1096): when a
read target is present, build its wrapper at record index 0. -/
def mmioR0 (hasRead udRead : Bool) (ord : MakeHookOracle) :
    Option HookWrapper × List Ev :=
  if hasRead then
    ((makeHookWrapper 0 SigId.MmioReadHandler ord udRead).1,
     (makeHookWrapper 0 SigId.MmioReadHandler ord udRead).2.1)
  else (none, [])

/-- The `hooks[1]` construction step of `_mmio_map` (lines 1098-1104): when a
write target is present, build its wrapper at record index 1. -/
def mmioR1 (hasWrite udWrite : Bool) (owr : MakeHookOracle) :
    Option HookWrapper × List Ev :=
  if hasWrite then
    ((makeHookWrapper 1 SigId.MmioWriteHandler owr udWrite).1,
     (makeHookWrapper 1 SigId.MmioWriteHandler owr udWrite).2.1)
  else (none, [])

/-- `Java_unicorn_Unicorn__1mmio_1map` (lines 1083-1131): build a wrapper for
each present target (index 0 = read, 1 = write), jumping to `fail:` if either
construction or the result-array allocation or the native `uc_mmio_map` call
fails; on success return the handles of the wrappers built. -/
def mmio_map (hasRead hasWrite udRead udWrite : Bool) (o : MmioOracle) :
    Option (List HookWrapper) × List Ev :=
  let r0 := mmioR0 hasRead udRead o.rd
  if hasRead ∧ r0.1 = none then mmioFail r0.2 r0.1 none
  else
    let r1 := mmioR1 hasWrite udWrite o.wr
    if hasWrite ∧ r1.1 = none then mmioFail (r0.2 ++ r1.2) r0.1 r1.1
    else if !o.arrayOk then mmioFail (r0.2 ++ r1.2) r0.1 r1.1
    else
      let ev := r0.2 ++ r1.2 ++ [Ev.nativeMmioMap]
      if o.mmioErr ≠ UC_ERR_OK then mmioFail ev r0.1 r1.1
      else (some (r0.1.toList ++ r1.1.toList), ev)

/-- Trace membership as a Boolean. -/
def evMem (T : List Ev) (e : Ev) : Bool :=
  T.any fun x => decide (x = e)

/-- Whether one event's cleanup obligation is discharged somewhere in `T`: an
allocation needs a matching free, an acquired reference a matching release;
other events carry no obligation. -/
def counterpartOk (T : List Ev) : Ev → Bool
  | Ev.allocRecord i => evMem T (Ev.freeRecord i)
  | Ev.acquireRef i k => evMem T (Ev.releaseRef i k)
  | _ => true

/-- Every event of `X` has its cleanup obligation discharged in `T`. -/
def coveredBy (X T : List Ev) : Bool :=
  X.all fun e => counterpartOk T e

/-- A trace is balanced when every allocation in it is freed in it and every
acquired reference is released in it. -/
def balancedB (T : List Ev) : Bool := coveredBy T T

/-- Occurrence count of an event in a trace. -/
def countEv (T : List Ev) (e : Ev) : Nat :=
  T.countP fun x => decide (x = e)

example : (hook_add_0 UC_HOOK_INTR ⟨false, true, true, true, true, true⟩ true 0).1 =
    HookAddResult.nullDeref := by decide

example :
    balancedB (mmio_map true true true true
      ⟨⟨true, true, true, true, true, true⟩, ⟨false, true, true, true, true, true⟩,
       true, 0⟩).2 = true := by decide

/-! ## Engine-control facade -/

/-- A thrown `unicorn.UnicornException`: `canonical code` is the exception
built by `throwUnicornException` (lines 39-44), whose message is the engine's
canonical string `uc_strerror(code)` for the status; `custom` is the
exception built by `throwCustomUnicornException` (lines 46-50) from a
layer-authored message. -/
inductive UcException
  | canonical (code : Nat)
  | custom
deriving DecidableEq, Repr

/-- The status-check pattern repeated verbatim by every validating boundary
entry point: `if (err != UC_ERR_OK) { throwUnicornException(env, err); }`. -/
def checkedStatus (err : Nat) : Option UcException :=
  if err ≠ UC_ERR_OK then some (UcException.canonical err) else none

/-- The boundary entry points of unicorn_Unicorn.c that invoke the native
engine and receive a `uc_err` status code from it.  (Excluded because they
receive no status: `_version`, `_arch_supported`, `_strerror`,
`_hookwrapper_free`.) -/
inductive BoundaryEntry
  | e_open
  | e_close
  | e_emu_start
  | e_emu_stop
  | e_reg_read_long
  | e_reg_read_bytes
  | e_reg_write_long
  | e_reg_write_bytes
  | e_reg_read_x86_mmr
  | e_reg_write_x86_mmr
  | e_reg_read_x86_msr
  | e_reg_write_x86_msr
  | e_reg_read_arm_cp
  | e_reg_write_arm_cp
  | e_reg_read_arm64_cp
  | e_reg_write_arm64_cp
  | e_mem_read
  | e_mem_write
  | e_query
  | e_errno
  | e_hook_add_0
  | e_hook_add_1
  | e_hook_add_2
  | e_hook_del
  | e_mmio_map
  | e_mem_map
  | e_mem_map_ptr
  | e_mem_unmap
  | e_mem_protect
  | e_mem_regions
  | e_context_alloc
  | e_context_free
  | e_context_save
  | e_context_restore
  | e_ctl_get_mode
  | e_ctl_get_arch
  | e_ctl_get_timeout
  | e_ctl_get_page_size
  | e_ctl_set_page_size
  | e_ctl_set_use_exits
  | e_ctl_get_exits_cnt
  | e_ctl_get_exits
  | e_ctl_set_exits
  | e_ctl_get_cpu_model
  | e_ctl_set_cpu_model
  | e_ctl_request_cache
  | e_ctl_remove_cache
  | e_ctl_flush_tb
  | e_ctl_flush_tlb
  | e_ctl_tlb_mode
deriving DecidableEq, Repr, Fintype

/-- What each boundary entry point raises as a function of the `uc_err`
status it receives from the native call it wraps.  Every entry point checks
the status with the `checkedStatus` pattern, except: `_hook_del` (line 1050)
discards the result of `uc_hook_del` and never raises, and `_errno`
(lines 818-822) returns the status of `uc_errno` as its value without
raising. -/
def entryRaises : BoundaryEntry → Nat → Option UcException
  | BoundaryEntry.e_hook_del, _ => none
  | BoundaryEntry.e_errno, _ => none
  | _, err => checkedStatus err

/-! ## Write-direction boundary calls over caller arrays.

`GetByteArrayElements`/`GetLongArrayElements` hand the native side a buffer
holding a copy of the caller's array; `Release*ArrayElements` with mode
`JNI_ABORT` discards that buffer without copying anything back, while mode 0
copies it back.  The engine calls receiving the buffer
(`uc_reg_write`/`uc_context_reg_write`, `uc_mem_write`, `uc_ctl_set_exits`)
take it as a read-only source, so they are modelled as functions returning
only a status. -/

/-- The two `Release*ArrayElements` modes used in the source. -/
inductive JniReleaseMode
  | commit0
  | jniAbort
deriving DecidableEq, Repr

/-- `Release*ArrayElements`: the caller's array after the release.  Mode 0
writes the native buffer back; `JNI_ABORT` leaves the caller's array as it
was. -/
def releaseArrayElements (caller buffer : List Nat) :
    JniReleaseMode → List Nat
  | JniReleaseMode.commit0 => buffer
  | JniReleaseMode.jniAbort => caller

/-- `Java_unicorn_Unicorn__1reg_1write_1bytes` (lines 551-562): get the
elements, pass them to `generic_reg_write` (modelled by `native`, which sees
the buffer and yields a status), release with `JNI_ABORT`, then check the
status.  Result: the raised exception (if any) and the caller's array after
the call. -/
def reg_write_bytes (native : List Nat → Nat) (data : List Nat) :
    Option UcException × List Nat :=
  let arr := data
  let err := native arr
  let callerAfter := releaseArrayElements data arr JniReleaseMode.jniAbort
  (checkedStatus err, callerAfter)

/-- `Java_unicorn_Unicorn__1mem_1write` (lines 759-772): get the source
array's length and elements, call `uc_mem_write` (modelled by `native`,
receiving buffer and length), release with `JNI_ABORT`, check the status. -/
def mem_write (native : List Nat → Nat → Nat) (src : List Nat) :
    Option UcException × List Nat :=
  let size := src.length
  let arr := src
  let err := native arr size
  let callerAfter := releaseArrayElements src arr JniReleaseMode.jniAbort
  (checkedStatus err, callerAfter)

/-- `Java_unicorn_Unicorn__1ctl_1set_1exits` (lines 1491-1508): get the
length and elements (returning silently if `GetLongArrayElements` fails),
call `uc_ctl_set_exits`, release with `JNI_ABORT`, check the status. -/
def ctl_set_exits (getOk : Bool) (native : List Nat → Nat → Nat)
    (exits : List Nat) : Option UcException × List Nat :=
  if !getOk then (none, exits)
  else
    let count := exits.length
    let arr := exits
    let err := native arr count
    let callerAfter := releaseArrayElements exits arr JniReleaseMode.jniAbort
    (checkedStatus err, callerAfter)

example : entryRaises BoundaryEntry.e_mem_map 11 =
    some (UcException.canonical 11) := by decide

example : entryRaises BoundaryEntry.e_hook_del 3 = none := by decide

/-! ## Theorems -/

theorem mtb_state_invoked (ok : Bool) (tb : Option UcTb) (s : TrampState) :
    (makeTranslationBlock ok tb s).2.invoked = s.invoked := by
  cases tb
  · rfl
  · simp only [makeTranslationBlock]
    split <;> rfl

theorem hec_invoked (s : TrampState) :
    ((hookErrorCheck s).1).invoked = s.invoked := by
  simp only [hookErrorCheck]
  split <;> rfl

/-- Claim C1: in every hook trampoline, a host-side failure pending
immediately after the host callback returns makes the trampoline request
`uc_emu_stop` before returning and makes it return the shape's safe/neutral
result (0 for the value-returning `in`, `cpuid`, system-register, MMIO-read
hooks, `false` for the veto-style memory / invalid-instruction hooks, veto
with the TLB entry untouched for the TLB-fill hook) instead of the
callback's result. -/
theorem C1_trampolines_error_stop
    (s : TrampState) (thr : Bool)
    (rIn rCpuid rSys rTlb rMmio : Nat) (bMem bIns : Bool)
    (entry : UcTlbEntry) (t1 t2 : UcTb)
    (h : (s.excPending || thr) = true) :
    (cb_hookintr ⟨(), thr⟩ s).stopRequested = true
    ∧ ((cb_insn_in ⟨rIn, thr⟩ s).1.stopRequested = true
        ∧ (cb_insn_in ⟨rIn, thr⟩ s).2 = 0)
    ∧ (cb_insn_out ⟨(), thr⟩ s).stopRequested = true
    ∧ (cb_insn_syscall ⟨(), thr⟩ s).stopRequested = true
    ∧ ((cb_insn_cpuid ⟨rCpuid, thr⟩ s).1.stopRequested = true
        ∧ (cb_insn_cpuid ⟨rCpuid, thr⟩ s).2 = 0)
    ∧ ((cb_insn_sys true (some ()) ⟨rSys, thr⟩ s).1.stopRequested = true
        ∧ (cb_insn_sys true (some ()) ⟨rSys, thr⟩ s).2 = 0)
    ∧ (cb_hookcode ⟨(), thr⟩ s).stopRequested = true
    ∧ ((cb_eventmem ⟨bMem, thr⟩ s).1.stopRequested = true
        ∧ (cb_eventmem ⟨bMem, thr⟩ s).2 = false)
    ∧ (cb_hookmem ⟨(), thr⟩ s).stopRequested = true
    ∧ ((cb_hookinsn_invalid ⟨bIns, thr⟩ s).1.stopRequested = true
        ∧ (cb_hookinsn_invalid ⟨bIns, thr⟩ s).2 = false)
    ∧ (cb_edge_gen true true (some t1) (some t2) ⟨(), thr⟩ s).stopRequested = true
    ∧ (cb_tcg_op_2 ⟨(), thr⟩ s).stopRequested = true
    ∧ ((cb_tlbevent ⟨rTlb, thr⟩ entry s).1.stopRequested = true
        ∧ (cb_tlbevent ⟨rTlb, thr⟩ entry s).2.1 = false
        ∧ (cb_tlbevent ⟨rTlb, thr⟩ entry s).2.2 = entry)
    ∧ ((cb_mmio_read ⟨rMmio, thr⟩ s).1.stopRequested = true
        ∧ (cb_mmio_read ⟨rMmio, thr⟩ s).2 = 0)
    ∧ (cb_mmio_write ⟨(), thr⟩ s).stopRequested = true := by
  simp [cb_hookintr, cb_insn_in, cb_insn_out, cb_insn_syscall, cb_insn_cpuid,
    cb_insn_sys, cb_hookcode, cb_eventmem, cb_hookmem, cb_hookinsn_invalid,
    cb_edge_gen, cb_tcg_op_2, cb_tlbevent, cb_mmio_read, cb_mmio_write,
    makeArm64_CP, makeTranslationBlock, callHost, hookErrorCheck, h]

theorem C1_trampolines_error_stop_witness :
    (cb_hookintr ⟨(), true⟩ ⟨false, false, false⟩).stopRequested = true
    ∧ ((cb_insn_in ⟨7, true⟩ ⟨false, false, false⟩).1.stopRequested = true
        ∧ (cb_insn_in ⟨7, true⟩ ⟨false, false, false⟩).2 = 0)
    ∧ (cb_insn_out ⟨(), true⟩ ⟨false, false, false⟩).stopRequested = true
    ∧ (cb_insn_syscall ⟨(), true⟩ ⟨false, false, false⟩).stopRequested = true
    ∧ ((cb_insn_cpuid ⟨8, true⟩ ⟨false, false, false⟩).1.stopRequested = true
        ∧ (cb_insn_cpuid ⟨8, true⟩ ⟨false, false, false⟩).2 = 0)
    ∧ ((cb_insn_sys true (some ()) ⟨9, true⟩ ⟨false, false, false⟩).1.stopRequested = true
        ∧ (cb_insn_sys true (some ()) ⟨9, true⟩ ⟨false, false, false⟩).2 = 0)
    ∧ (cb_hookcode ⟨(), true⟩ ⟨false, false, false⟩).stopRequested = true
    ∧ ((cb_eventmem ⟨true, true⟩ ⟨false, false, false⟩).1.stopRequested = true
        ∧ (cb_eventmem ⟨true, true⟩ ⟨false, false, false⟩).2 = false)
    ∧ (cb_hookmem ⟨(), true⟩ ⟨false, false, false⟩).stopRequested = true
    ∧ ((cb_hookinsn_invalid ⟨true, true⟩ ⟨false, false, false⟩).1.stopRequested = true
        ∧ (cb_hookinsn_invalid ⟨true, true⟩ ⟨false, false, false⟩).2 = false)
    ∧ (cb_edge_gen true true (some ⟨4096, 1, 4⟩) (some ⟨8192, 2, 8⟩) ⟨(), true⟩
        ⟨false, false, false⟩).stopRequested = true
    ∧ (cb_tcg_op_2 ⟨(), true⟩ ⟨false, false, false⟩).stopRequested = true
    ∧ ((cb_tlbevent ⟨4099, true⟩ ⟨5, 1⟩ ⟨false, false, false⟩).1.stopRequested = true
        ∧ (cb_tlbevent ⟨4099, true⟩ ⟨5, 1⟩ ⟨false, false, false⟩).2.1 = false
        ∧ (cb_tlbevent ⟨4099, true⟩ ⟨5, 1⟩ ⟨false, false, false⟩).2.2 = ⟨5, 1⟩)
    ∧ ((cb_mmio_read ⟨6, true⟩ ⟨false, false, false⟩).1.stopRequested = true
        ∧ (cb_mmio_read ⟨6, true⟩ ⟨false, false, false⟩).2 = 0)
    ∧ (cb_mmio_write ⟨(), true⟩ ⟨false, false, false⟩).stopRequested = true :=
  C1_trampolines_error_stop ⟨false, false, false⟩ true 7 8 9 4099 6 true true
    ⟨5, 1⟩ ⟨4096, 1, 4⟩ ⟨8192, 2, 8⟩ (by decide)

/-- Claim C5: the TLB-fill trampoline, when the callback returns a value `V`
other than `-1` (the `jlong` pattern `2 ^ 64 - 1`) and no host failure is
pending, writes the replacement entry with physical address
`V &&& (2 ^ 64 - 8)` (the permission bits masked off) and permissions
`V &&& UC_PROT_ALL`, and reports the fill handled; a callback value of `-1`
vetoes and leaves the entry unwritten. -/
theorem C5_tlb_fill_decomposition
    (r : Nat) (s : TrampState) (entry : UcTlbEntry)
    (_hr : r < 2 ^ 64) (h : s.excPending = false) :
    (r ≠ 2 ^ 64 - 1 →
      cb_tlbevent ⟨r, false⟩ entry s =
        ({ s with invoked := true }, true,
         ⟨r &&& (2 ^ 64 - 8), r &&& UC_PROT_ALL⟩))
    ∧ (r = 2 ^ 64 - 1 →
      cb_tlbevent ⟨r, false⟩ entry s = ({ s with invoked := true }, false, entry)) := by
  constructor
  · intro hne
    have hne2 : ¬r = 18446744073709551615 := by simpa using hne
    simp [cb_tlbevent, callHost, hookErrorCheck, h, hne2]
  · intro he
    simp [cb_tlbevent, callHost, hookErrorCheck, h, he]

theorem C5_tlb_fill_decomposition_witness :
    cb_tlbevent ⟨4099, false⟩ ⟨0, 0⟩ ⟨false, false, false⟩ =
      (⟨false, false, true⟩, true, ⟨4096, 3⟩) := by
  have h :=
    (C5_tlb_fill_decomposition 4099 ⟨false, false, false⟩ ⟨0, 0⟩ (by decide)
      rfl).1 (by decide)
  exact h.trans (by decide)

/-- Claim C9: in the edge-generation trampoline, failure of either
translation-block descriptor construction (including a NULL current or
previous translation block) short-circuits the dispatch: the host callback is
not invoked, and the trampoline performs its `hookErrorCheck` on the state
left by the failing construction and returns. -/
theorem C9_edge_gen_short_circuit
    (jniOk1 jniOk2 : Bool) (cur prev : Option UcTb) (cb : HostCb Unit)
    (s : TrampState) :
    (∀ s1, makeTranslationBlock jniOk1 cur s = (none, s1) →
        cb_edge_gen jniOk1 jniOk2 cur prev cb s = (hookErrorCheck s1).1
        ∧ (cb_edge_gen jniOk1 jniOk2 cur prev cb s).invoked = s.invoked)
    ∧ (∀ t1 s1 s2, makeTranslationBlock jniOk1 cur s = (some t1, s1) →
        makeTranslationBlock jniOk2 prev s1 = (none, s2) →
        cb_edge_gen jniOk1 jniOk2 cur prev cb s = (hookErrorCheck s2).1
        ∧ (cb_edge_gen jniOk1 jniOk2 cur prev cb s).invoked = s.invoked) := by
  constructor
  · intro s1 h1
    have he : cb_edge_gen jniOk1 jniOk2 cur prev cb s = (hookErrorCheck s1).1 := by
      simp only [cb_edge_gen, h1]
    refine ⟨he, ?_⟩
    rw [he, hec_invoked]
    have hm := mtb_state_invoked jniOk1 cur s
    rw [h1] at hm
    exact hm
  · intro t1 s1 s2 h1 h2
    have he : cb_edge_gen jniOk1 jniOk2 cur prev cb s = (hookErrorCheck s2).1 := by
      simp only [cb_edge_gen, h1, h2]
    refine ⟨he, ?_⟩
    rw [he, hec_invoked]
    have hm1 := mtb_state_invoked jniOk1 cur s
    rw [h1] at hm1
    have hm2 := mtb_state_invoked jniOk2 prev s1
    rw [h2] at hm2
    exact hm2.trans hm1

/-- An oracle under which every JNI/libc step succeeds. -/
def allOkOracle : MakeHookOracle := ⟨true, true, true, true, true, true⟩

/-- An oracle under which the `calloc` of the hook record fails. -/
def callocFailOracle : MakeHookOracle := ⟨false, true, true, true, true, true⟩

/-- An oracle under which `GetMethodID` (method resolution) fails. -/
def methodFailOracle : MakeHookOracle := ⟨true, true, true, true, false, true⟩

/-- Claim C2 counterexample: registering under the generic instruction event
type with an unrecognised instruction identifier does fail immediately with
no record and no native registration, but with the invalid-instruction error
`UC_ERR_INSN_INVALID`, which is not the hook-kind error `UC_ERR_HOOK`. -/
theorem C2_hook_kind_counterexample :
    hook_add_1 UC_HOOK_INSN (InsnId.other 0) allOkOracle true 0 =
      (HookAddResult.thrown UC_ERR_INSN_INVALID, [])
    ∧ UC_ERR_INSN_INVALID ≠ UC_ERR_HOOK := by decide

/-- Claim C2 (amended): a hook registration whose hook-shape / event-type
combination is not one of the fixed enumeration entries fails immediately —
before any native registration and before any record is allocated (empty
event trace) — with the hook-kind error `UC_ERR_HOOK`, except that an
unrecognised instruction identifier under the generic instruction event type
fails, equally immediately, with the invalid-instruction error
`UC_ERR_INSN_INVALID`. -/
theorem C2_invalid_combination_amended :
    (∀ (type : Nat) (o : MakeHookOracle) (ud : Bool) (err : Nat),
        selectShape0 type = none →
        hook_add_0 type o ud err = (HookAddResult.thrown UC_ERR_HOOK, []))
    ∧ (∀ (type : Nat) (arg : InsnId) (o : MakeHookOracle) (ud : Bool) (err : Nat),
        type ≠ UC_HOOK_INSN →
        hook_add_1 type arg o ud err = (HookAddResult.thrown UC_ERR_HOOK, []))
    ∧ (∀ (arg : InsnId) (o : MakeHookOracle) (ud : Bool) (err : Nat),
        insnDispatch arg = none →
        hook_add_1 UC_HOOK_INSN arg o ud err =
          (HookAddResult.thrown UC_ERR_INSN_INVALID, []))
    ∧ (∀ (type : Nat) (o : MakeHookOracle) (ud : Bool) (err : Nat),
        type ≠ UC_HOOK_TCG_OPCODE →
        hook_add_2 type o ud err = (HookAddResult.thrown UC_ERR_HOOK, [])) := by
  refine ⟨?_, ?_, ?_, ?_⟩
  · intro type o ud err hs
    simp [hook_add_0, hs]
  · intro type arg o ud err ht
    simp [hook_add_1, ht]
  · intro arg o ud err hd
    simp [hook_add_1, hd]
  · intro type o ud err ht
    simp [hook_add_2, ht]

theorem C2_invalid_combination_amended_witness :
    hook_add_0 3 allOkOracle true 0 = (HookAddResult.thrown UC_ERR_HOOK, [])
    ∧ hook_add_1 UC_HOOK_CODE InsnId.insIN allOkOracle true 0 =
        (HookAddResult.thrown UC_ERR_HOOK, [])
    ∧ hook_add_1 UC_HOOK_INSN (InsnId.other 99) allOkOracle true 0 =
        (HookAddResult.thrown UC_ERR_INSN_INVALID, [])
    ∧ hook_add_2 UC_HOOK_INTR allOkOracle true 0 =
        (HookAddResult.thrown UC_ERR_HOOK, []) :=
  ⟨C2_invalid_combination_amended.1 3 allOkOracle true 0 (by decide),
   C2_invalid_combination_amended.2.1 UC_HOOK_CODE InsnId.insIN allOkOracle true 0
     (by decide),
   C2_invalid_combination_amended.2.2.1 (InsnId.other 99) allOkOracle true 0
     (by decide),
   C2_invalid_combination_amended.2.2.2 UC_HOOK_INTR allOkOracle true 0 (by decide)⟩

/-- Claim C4, evaluated at the failing inputs: `makeHookWrapper` itself does
release everything it acquired (its trace plus the eventual delete is always
balanced) and raises `OutOfMemoryError` on allocation failure, but each
`_hook_add` overload then passes the NULL record straight to `uc_hook_add`
(`&hh->uc_hh` with `hh == NULL`) instead of returning — the registration call
does not return without further use of the failed record. -/
theorem C4_failed_record_dereferenced :
    (hook_add_0 UC_HOOK_INTR callocFailOracle true 0).1 = HookAddResult.nullDeref
    ∧ (hook_add_1 UC_HOOK_INSN InsnId.insIN callocFailOracle true 0).1 =
        HookAddResult.nullDeref
    ∧ (hook_add_2 UC_HOOK_TCG_OPCODE methodFailOracle true 0).1 =
        HookAddResult.nullDeref
    ∧ (makeHookWrapper 0 SigId.InterruptHook callocFailOracle true).2.2 =
        some JThrow.oom
    ∧ balancedB (makeHookWrapper 0 SigId.TcgOpcodeHook methodFailOracle true).2.1 =
        true
    ∧ (∀ (o : MakeHookOracle) (ud : Bool),
        balancedB ((makeHookWrapper 0 SigId.InterruptHook o ud).2.1
          ++ deleteHookWrapper (makeHookWrapper 0 SigId.InterruptHook o ud).1) =
          true) := by decide

/-- Claim C8: under the generic instruction event type the instruction
identifier alone selects the trampoline and callback signature — port-in,
port-out, syscall and sysenter, cpuid, and the four ARM64 system-register
instructions each map to their shape — and any other identifier fails with
the invalid-instruction error before any record or native registration. -/
theorem C8_insn_id_selects_shape :
    (∀ ud : Bool, hook_add_1 UC_HOOK_INSN InsnId.insIN allOkOracle ud 0 =
      (HookAddResult.handle ⟨0, SigId.InHook, true, true, true, ud⟩,
       [Ev.allocRecord 0, Ev.acquireRef 0 RefKind.selfRef,
        Ev.acquireRef 0 RefKind.cbRef]
         ++ (if ud then [Ev.acquireRef 0 RefKind.udRef] else [])
         ++ [Ev.nativeHookAdd 0 TrampKind.insn_in]))
    ∧ (∀ ud : Bool, hook_add_1 UC_HOOK_INSN InsnId.insOUT allOkOracle ud 0 =
      (HookAddResult.handle ⟨0, SigId.OutHook, true, true, true, ud⟩,
       [Ev.allocRecord 0, Ev.acquireRef 0 RefKind.selfRef,
        Ev.acquireRef 0 RefKind.cbRef]
         ++ (if ud then [Ev.acquireRef 0 RefKind.udRef] else [])
         ++ [Ev.nativeHookAdd 0 TrampKind.insn_out]))
    ∧ (∀ ud : Bool, hook_add_1 UC_HOOK_INSN InsnId.insSYSCALL allOkOracle ud 0 =
      (HookAddResult.handle ⟨0, SigId.SyscallHook, true, true, true, ud⟩,
       [Ev.allocRecord 0, Ev.acquireRef 0 RefKind.selfRef,
        Ev.acquireRef 0 RefKind.cbRef]
         ++ (if ud then [Ev.acquireRef 0 RefKind.udRef] else [])
         ++ [Ev.nativeHookAdd 0 TrampKind.insn_syscall]))
    ∧ (∀ ud : Bool, hook_add_1 UC_HOOK_INSN InsnId.insSYSENTER allOkOracle ud 0 =
      (HookAddResult.handle ⟨0, SigId.SyscallHook, true, true, true, ud⟩,
       [Ev.allocRecord 0, Ev.acquireRef 0 RefKind.selfRef,
        Ev.acquireRef 0 RefKind.cbRef]
         ++ (if ud then [Ev.acquireRef 0 RefKind.udRef] else [])
         ++ [Ev.nativeHookAdd 0 TrampKind.insn_syscall]))
    ∧ (∀ ud : Bool, hook_add_1 UC_HOOK_INSN InsnId.insCPUID allOkOracle ud 0 =
      (HookAddResult.handle ⟨0, SigId.CpuidHook, true, true, true, ud⟩,
       [Ev.allocRecord 0, Ev.acquireRef 0 RefKind.selfRef,
        Ev.acquireRef 0 RefKind.cbRef]
         ++ (if ud then [Ev.acquireRef 0 RefKind.udRef] else [])
         ++ [Ev.nativeHookAdd 0 TrampKind.insn_cpuid]))
    ∧ (∀ ud : Bool, hook_add_1 UC_HOOK_INSN InsnId.insMRS allOkOracle ud 0 =
      (HookAddResult.handle ⟨0, SigId.Arm64SysHook, true, true, true, ud⟩,
       [Ev.allocRecord 0, Ev.acquireRef 0 RefKind.selfRef,
        Ev.acquireRef 0 RefKind.cbRef]
         ++ (if ud then [Ev.acquireRef 0 RefKind.udRef] else [])
         ++ [Ev.nativeHookAdd 0 TrampKind.insn_sys]))
    ∧ (∀ ud : Bool, hook_add_1 UC_HOOK_INSN InsnId.insMSR allOkOracle ud 0 =
      (HookAddResult.handle ⟨0, SigId.Arm64SysHook, true, true, true, ud⟩,
       [Ev.allocRecord 0, Ev.acquireRef 0 RefKind.selfRef,
        Ev.acquireRef 0 RefKind.cbRef]
         ++ (if ud then [Ev.acquireRef 0 RefKind.udRef] else [])
         ++ [Ev.nativeHookAdd 0 TrampKind.insn_sys]))
    ∧ (∀ ud : Bool, hook_add_1 UC_HOOK_INSN InsnId.insSYS allOkOracle ud 0 =
      (HookAddResult.handle ⟨0, SigId.Arm64SysHook, true, true, true, ud⟩,
       [Ev.allocRecord 0, Ev.acquireRef 0 RefKind.selfRef,
        Ev.acquireRef 0 RefKind.cbRef]
         ++ (if ud then [Ev.acquireRef 0 RefKind.udRef] else [])
         ++ [Ev.nativeHookAdd 0 TrampKind.insn_sys]))
    ∧ (∀ ud : Bool, hook_add_1 UC_HOOK_INSN InsnId.insSYSL allOkOracle ud 0 =
      (HookAddResult.handle ⟨0, SigId.Arm64SysHook, true, true, true, ud⟩,
       [Ev.allocRecord 0, Ev.acquireRef 0 RefKind.selfRef,
        Ev.acquireRef 0 RefKind.cbRef]
         ++ (if ud then [Ev.acquireRef 0 RefKind.udRef] else [])
         ++ [Ev.nativeHookAdd 0 TrampKind.insn_sys]))
    ∧ (∀ (n : Nat) (o : MakeHookOracle) (ud : Bool) (err : Nat),
        hook_add_1 UC_HOOK_INSN (InsnId.other n) o ud err =
          (HookAddResult.thrown UC_ERR_INSN_INVALID, [])) := by
  refine ⟨by decide, by decide, by decide, by decide, by decide, by decide,
    by decide, by decide, by decide, ?_⟩
  intro n o ud err
  simp [hook_add_1, insnDispatch]

/-- Claim C7: `_hook_del` detaches the native hook first (the native delete
is the head of its trace) and then releases exactly the held strong
references, clearing each field; a second `_hook_del` on the same record
releases nothing further; and a successful registration followed by
`_hook_del` followed by `_hookwrapper_free` releases each acquired reference
exactly once. -/
theorem C7_unregister_release_once :
    (∀ w : HookWrapper,
        (hook_del w).1.unicorn = false
        ∧ (hook_del w).1.hook_obj = false
        ∧ (hook_del w).1.user_data = false
        ∧ (hook_del w).2.head? = some (Ev.nativeHookDel w.idx)
        ∧ (Ev.releaseRef w.idx RefKind.selfRef ∈ (hook_del w).2 ↔ w.unicorn = true)
        ∧ (Ev.releaseRef w.idx RefKind.cbRef ∈ (hook_del w).2 ↔ w.hook_obj = true)
        ∧ (Ev.releaseRef w.idx RefKind.udRef ∈ (hook_del w).2 ↔ w.user_data = true))
    ∧ (∀ w : HookWrapper, (hook_del (hook_del w).1).2 = [Ev.nativeHookDel w.idx])
    ∧ (∀ (sg : SigId) (o : MakeHookOracle) (ud : Bool) (k : RefKind),
        Option.all (fun w =>
            countEv ((makeHookWrapper 0 sg o ud).2.1 ++ (hook_del w).2
                ++ hookwrapper_free (some (hook_del w).1))
              (Ev.releaseRef 0 k)
              == countEv (makeHookWrapper 0 sg o ud).2.1 (Ev.acquireRef 0 k))
          (makeHookWrapper 0 sg o ud).1 = true) := by
  refine ⟨?_, ?_, by decide⟩
  · intro w
    rcases w with ⟨i, sg, u, hobj, m, ud⟩
    cases u <;> cases hobj <;> cases ud <;> simp [hook_del]
  · intro w
    rcases w with ⟨i, sg, u, hobj, m, ud⟩
    cases u <;> cases hobj <;> cases ud <;> simp [hook_del]

/-- Claim C6 counterexample: not every boundary entry point that receives a
native status raises iff the status is non-OK — `_hook_del` discards the
status of `uc_hook_del` and raises nothing even for the non-OK status
`UC_ERR_HANDLE`. -/
theorem C6_status_translation_counterexample :
    ¬ (∀ (e : BoundaryEntry) (err : Nat),
        ((entryRaises e err).isSome ↔ err ≠ UC_ERR_OK)
        ∧ (∀ x, entryRaises e err = some x → x = UcException.canonical err)) := by
  intro hclaim
  have h := (hclaim BoundaryEntry.e_hook_del UC_ERR_HANDLE).1
  simp [entryRaises, UC_ERR_HANDLE, UC_ERR_OK] at h

/-- Claim C6 (amended): every boundary entry point that receives a native
status code and checks it — that is, every one except `_hook_del`, which
discards the status of `uc_hook_del`, and `_errno`, which returns the status
as its value — raises a failure iff the status is non-OK, and what it raises
is the exception carrying the engine's canonical message for that status. -/
theorem C6_status_translation_amended
    (e : BoundaryEntry) (h1 : e ≠ BoundaryEntry.e_hook_del)
    (h2 : e ≠ BoundaryEntry.e_errno) (err : Nat) :
    ((entryRaises e err).isSome ↔ err ≠ UC_ERR_OK)
    ∧ (∀ x, entryRaises e err = some x → x = UcException.canonical err) := by
  by_cases he : err = UC_ERR_OK
  · cases e <;> simp_all [entryRaises, checkedStatus]
  · cases e <;> simp_all [entryRaises, checkedStatus]

theorem C6_status_translation_amended_witness :
    ((entryRaises BoundaryEntry.e_mem_map UC_ERR_MAP).isSome ↔
      UC_ERR_MAP ≠ UC_ERR_OK)
    ∧ (∀ x, entryRaises BoundaryEntry.e_mem_map UC_ERR_MAP = some x →
        x = UcException.canonical UC_ERR_MAP) :=
  C6_status_translation_amended BoundaryEntry.e_mem_map (by decide) (by decide)
    UC_ERR_MAP

/-- Claim C10: the caller-supplied source arrays of `_reg_write_bytes`,
`_mem_write` and `_ctl_set_exits` are returned to the caller unchanged, on
the success and on every failure path, whatever status the engine reports. -/
theorem C10_source_arrays_unmodified
    (nativeReg : List Nat → Nat) (nativeMem nativeExits : List Nat → Nat → Nat)
    (data src exits : List Nat) (getOk : Bool) :
    (reg_write_bytes nativeReg data).2 = data
    ∧ (mem_write nativeMem src).2 = src
    ∧ (ctl_set_exits getOk nativeExits exits).2 = exits := by
  refine ⟨rfl, rfl, ?_⟩
  cases getOk <;> rfl

theorem C9_edge_gen_short_circuit_witness :
    cb_edge_gen true true none (some ⟨4096, 1, 4⟩) ⟨(), false⟩
        ⟨false, false, false⟩ =
      (hookErrorCheck ⟨false, false, false⟩).1
    ∧ (cb_edge_gen true true none (some ⟨4096, 1, 4⟩) ⟨(), false⟩
        ⟨false, false, false⟩).invoked = false :=
  (C9_edge_gen_short_circuit true true none (some ⟨4096, 1, 4⟩) ⟨(), false⟩
    ⟨false, false, false⟩).1 ⟨false, false, false⟩ rfl

/-! ### Claim C3: all-or-nothing composite MMIO registration -/

theorem evMem_true_iff (T : List Ev) (e : Ev) : evMem T e = true ↔ e ∈ T := by
  simp [evMem, List.any_eq_true]

theorem counterpartOk_subset {T U : List Ev} (sub : ∀ x, x ∈ T → x ∈ U)
    (e : Ev) (h : counterpartOk T e = true) : counterpartOk U e = true := by
  cases e <;> simp only [counterpartOk] at h ⊢ <;>
    first
      | rfl
      | (rw [evMem_true_iff] at h ⊢
         exact sub _ h)

theorem coveredBy_true_iff (X T : List Ev) :
    coveredBy X T = true ↔ ∀ e ∈ X, counterpartOk T e = true := by
  simp [coveredBy, List.all_eq_true]

theorem coveredBy_subset {X T U : List Ev} (sub : ∀ x, x ∈ T → x ∈ U)
    (h : coveredBy X T = true) : coveredBy X U = true := by
  rw [coveredBy_true_iff] at h ⊢
  intro e he
  exact counterpartOk_subset sub e (h e he)

theorem coveredBy_append (X Y T : List Ev) :
    coveredBy (X ++ Y) T = (coveredBy X T && coveredBy Y T) := by
  simp [coveredBy, List.all_append]

theorem coveredBy_del (ow : Option HookWrapper) (T : List Ev) :
    coveredBy (deleteHookWrapper ow) T = true := by
  rcases ow with _ | w
  · rfl
  · simp only [deleteHookWrapper, coveredBy_append, Bool.and_eq_true]
    refine ⟨⟨⟨?_, ?_⟩, ?_⟩, ?_⟩ <;>
      first
        | rfl
        | (split <;> rfl)

theorem covMkRead (ord : MakeHookOracle) (ud : Bool) :
    coveredBy (makeHookWrapper 0 SigId.MmioReadHandler ord ud).2.1
      ((makeHookWrapper 0 SigId.MmioReadHandler ord ud).2.1
        ++ deleteHookWrapper (makeHookWrapper 0 SigId.MmioReadHandler ord ud).1) =
      true := by
  revert ord ud
  decide

theorem covMkWrite (owr : MakeHookOracle) (ud : Bool) :
    coveredBy (makeHookWrapper 1 SigId.MmioWriteHandler owr ud).2.1
      ((makeHookWrapper 1 SigId.MmioWriteHandler owr ud).2.1
        ++ deleteHookWrapper (makeHookWrapper 1 SigId.MmioWriteHandler owr ud).1) =
      true := by
  revert owr ud
  decide

theorem covR0 (hasRead udRead : Bool) (ord : MakeHookOracle) :
    coveredBy (mmioR0 hasRead udRead ord).2
      ((mmioR0 hasRead udRead ord).2
        ++ deleteHookWrapper (mmioR0 hasRead udRead ord).1) = true := by
  cases hasRead
  · rfl
  · exact covMkRead ord udRead

theorem covR1 (hasWrite udWrite : Bool) (owr : MakeHookOracle) :
    coveredBy (mmioR1 hasWrite udWrite owr).2
      ((mmioR1 hasWrite udWrite owr).2
        ++ deleteHookWrapper (mmioR1 hasWrite udWrite owr).1) = true := by
  cases hasWrite
  · rfl
  · exact covMkWrite owr udWrite

theorem mmioFail_balanced (ev : List Ev) (h0 h1 : Option HookWrapper)
    (hcov : coveredBy ev
      (ev ++ deleteHookWrapper h0 ++ deleteHookWrapper h1) = true) :
    balancedB (mmioFail ev h0 h1).2 = true := by
  show coveredBy (ev ++ deleteHookWrapper h0 ++ deleteHookWrapper h1)
    (ev ++ deleteHookWrapper h0 ++ deleteHookWrapper h1) = true
  rw [coveredBy_append, coveredBy_append, hcov, coveredBy_del, coveredBy_del]
  rfl

theorem mkRead_success_shape (ord : MakeHookOracle) (ud : Bool) :
    Option.all
      (fun w => decide
        (w = (⟨0, SigId.MmioReadHandler, true, true, true, ud⟩ : HookWrapper)))
      (makeHookWrapper 0 SigId.MmioReadHandler ord ud).1 = true := by
  revert ord ud
  decide

theorem mkWrite_success_shape (owr : MakeHookOracle) (ud : Bool) :
    Option.all
      (fun w => decide
        (w = (⟨1, SigId.MmioWriteHandler, true, true, true, ud⟩ : HookWrapper)))
      (makeHookWrapper 1 SigId.MmioWriteHandler owr ud).1 = true := by
  revert owr ud
  decide

theorem mmioR0_toList (hasRead udRead : Bool) (ord : MakeHookOracle)
    (h : ¬(hasRead = true ∧ (mmioR0 hasRead udRead ord).1 = none)) :
    (mmioR0 hasRead udRead ord).1.toList =
      (if hasRead then
        [(⟨0, SigId.MmioReadHandler, true, true, true, udRead⟩ : HookWrapper)]
      else []) := by
  cases hasRead
  · simp [mmioR0]
  · have hne : (mmioR0 true udRead ord).1 ≠ none := fun hn => h ⟨rfl, hn⟩
    rcases ho : (makeHookWrapper 0 SigId.MmioReadHandler ord udRead).1 with _ | w
    · exact absurd (by simp [mmioR0, ho]) hne
    · have hall := mkRead_success_shape ord udRead
      rw [ho] at hall
      simp only [Option.all] at hall
      have hw : w = ⟨0, SigId.MmioReadHandler, true, true, true, udRead⟩ :=
        of_decide_eq_true hall
      simp [mmioR0, ho, hw]

theorem mmioR1_toList (hasWrite udWrite : Bool) (owr : MakeHookOracle)
    (h : ¬(hasWrite = true ∧ (mmioR1 hasWrite udWrite owr).1 = none)) :
    (mmioR1 hasWrite udWrite owr).1.toList =
      (if hasWrite then
        [(⟨1, SigId.MmioWriteHandler, true, true, true, udWrite⟩ : HookWrapper)]
      else []) := by
  cases hasWrite
  · simp [mmioR1]
  · have hne : (mmioR1 true udWrite owr).1 ≠ none := fun hn => h ⟨rfl, hn⟩
    rcases ho : (makeHookWrapper 1 SigId.MmioWriteHandler owr udWrite).1 with _ | w
    · exact absurd (by simp [mmioR1, ho]) hne
    · have hall := mkWrite_success_shape owr udWrite
      rw [ho] at hall
      simp only [Option.all] at hall
      have hw : w = ⟨1, SigId.MmioWriteHandler, true, true, true, udWrite⟩ :=
        of_decide_eq_true hall
      simp [mmioR1, ho, hw]

/-- Claim C3: composite MMIO registration.  On success, each present target
gets its own Hook Binding Record — the returned handles are exactly one
record at index 0 (read shape, holding its references) when a read target is
present and one record at index 1 (write shape) when a write target is
present.  And the operation is all-or-nothing: whenever `_mmio_map` fails
(wrapper construction, result-array allocation or the native `uc_mmio_map`
call), every record allocated during the same call has been freed and every
strong reference acquired during the same call has been released by the time
the call signals failure. -/
theorem C3_mmio_all_or_nothing (hasRead hasWrite udRead udWrite : Bool)
    (o : MmioOracle) :
    (∀ ws, (mmio_map hasRead hasWrite udRead udWrite o).1 = some ws →
      ws =
        (if hasRead then
          [(⟨0, SigId.MmioReadHandler, true, true, true, udRead⟩ : HookWrapper)]
        else []) ++
        (if hasWrite then
          [(⟨1, SigId.MmioWriteHandler, true, true, true, udWrite⟩ : HookWrapper)]
        else []))
    ∧ ((mmio_map hasRead hasWrite udRead udWrite o).1 = none →
      balancedB (mmio_map hasRead hasWrite udRead udWrite o).2 = true) := by
  rcases o with ⟨ord, owr, arrOk, mErr⟩
  constructor
  · intro ws hsucc
    simp only [mmio_map] at hsucc
    by_cases c1 : hasRead ∧ (mmioR0 hasRead udRead ord).1 = none
    · rw [if_pos c1] at hsucc
      simp [mmioFail] at hsucc
    · rw [if_neg c1] at hsucc
      by_cases c2 : hasWrite ∧ (mmioR1 hasWrite udWrite owr).1 = none
      · rw [if_pos c2] at hsucc
        simp [mmioFail] at hsucc
      · rw [if_neg c2] at hsucc
        cases arrOk
        · rw [if_pos (show (!false) = true from rfl)] at hsucc
          simp [mmioFail] at hsucc
        · rw [if_neg (by decide)] at hsucc
          by_cases c4 : mErr ≠ UC_ERR_OK
          · rw [if_pos c4] at hsucc
            simp [mmioFail] at hsucc
          · rw [if_neg c4] at hsucc
            have h := Option.some.inj
              (show some ((mmioR0 hasRead udRead ord).1.toList
                  ++ (mmioR1 hasWrite udWrite owr).1.toList) = some ws from hsucc)
            rw [← h, mmioR0_toList hasRead udRead ord c1,
              mmioR1_toList hasWrite udWrite owr c2]
  · intro hfail
    simp only [mmio_map] at hfail ⊢
    by_cases c1 : hasRead ∧ (mmioR0 hasRead udRead ord).1 = none
    · rw [if_pos c1]
      apply mmioFail_balanced
      refine coveredBy_subset ?_ (covR0 hasRead udRead ord)
      intro x hx
      simp only [List.mem_append] at hx ⊢
      tauto
    · rw [if_neg c1] at hfail ⊢
      by_cases c2 : hasWrite ∧ (mmioR1 hasWrite udWrite owr).1 = none
      · rw [if_pos c2]
        apply mmioFail_balanced
        rw [coveredBy_append, Bool.and_eq_true]
        constructor
        · refine coveredBy_subset ?_ (covR0 hasRead udRead ord)
          intro x hx
          simp only [List.mem_append] at hx ⊢
          tauto
        · refine coveredBy_subset ?_ (covR1 hasWrite udWrite owr)
          intro x hx
          simp only [List.mem_append] at hx ⊢
          tauto
      · rw [if_neg c2] at hfail ⊢
        cases arrOk
        · rw [if_pos (show (!false) = true from rfl)]
          apply mmioFail_balanced
          rw [coveredBy_append, Bool.and_eq_true]
          constructor
          · refine coveredBy_subset ?_ (covR0 hasRead udRead ord)
            intro x hx
            simp only [List.mem_append] at hx ⊢
            tauto
          · refine coveredBy_subset ?_ (covR1 hasWrite udWrite owr)
            intro x hx
            simp only [List.mem_append] at hx ⊢
            tauto
        · rw [if_neg (by decide)] at hfail ⊢
          by_cases c4 : mErr ≠ UC_ERR_OK
          · rw [if_pos c4]
            apply mmioFail_balanced
            rw [coveredBy_append, coveredBy_append, Bool.and_eq_true,
              Bool.and_eq_true]
            refine ⟨⟨?_, ?_⟩, rfl⟩
            · refine coveredBy_subset ?_ (covR0 hasRead udRead ord)
              intro x hx
              simp only [List.mem_append] at hx ⊢
              tauto
            · refine coveredBy_subset ?_ (covR1 hasWrite udWrite owr)
              intro x hx
              simp only [List.mem_append] at hx ⊢
              tauto
          · rw [if_neg c4] at hfail
            simp at hfail

theorem C3_mmio_all_or_nothing_witness :
    ([(⟨0, SigId.MmioReadHandler, true, true, true, true⟩ : HookWrapper),
      ⟨1, SigId.MmioWriteHandler, true, true, true, true⟩] : List HookWrapper) =
      (if true then
        [(⟨0, SigId.MmioReadHandler, true, true, true, true⟩ : HookWrapper)]
      else []) ++
      (if true then
        [(⟨1, SigId.MmioWriteHandler, true, true, true, true⟩ : HookWrapper)]
      else [])
    ∧ balancedB (mmio_map true true true true
        ⟨allOkOracle, callocFailOracle, true, 0⟩).2 = true :=
  ⟨(C3_mmio_all_or_nothing true true true true
      ⟨allOkOracle, allOkOracle, true, 0⟩).1
      [⟨0, SigId.MmioReadHandler, true, true, true, true⟩,
       ⟨1, SigId.MmioWriteHandler, true, true, true, true⟩] (by decide),
   (C3_mmio_all_or_nothing true true true true
      ⟨allOkOracle, callocFailOracle, true, 0⟩).2 (by decide)⟩

